import Mathlib

/-!
Verification development for the GT06 GPS tracker gateway (`server.js`).

The definitions below are a shallow embedding of the server's data model and
operations: JS `Map`s become association lists, buffers become `List Nat`
(one entry per byte), the wall clock becomes an explicit `now : Nat`
parameter, and the opaque `Date.now + Math.random` queue-id source becomes a
fresh-counter.  The WebSocket fan-out is recorded as an explicit event trace.
-/

/-- Lookup in an association list, mirroring `Map.get`. -/
def alGet {κ ν : Type} [DecidableEq κ] : List (κ × ν) → κ → Option ν
  | [], _ => none
  | (k', v) :: rest, k => if k' = k then some v else alGet rest k

/-- Insert-or-replace in an association list, mirroring `Map.set`. -/
def alSet {κ ν : Type} [DecidableEq κ] : List (κ × ν) → κ → ν → List (κ × ν)
  | [], k, v => [(k, v)]
  | (k', v') :: rest, k, v =>
      if k' = k then (k, v) :: rest else (k', v') :: alSet rest k v

theorem alGet_alSet {κ ν : Type} [DecidableEq κ] (l : List (κ × ν)) (k : κ) (v : ν) :
    alGet (alSet l k v) k = some v := by
  induction l with
  | nil => simp [alGet, alSet]
  | cons hd tl ih =>
      by_cases h : hd.1 = k
      · simp [alGet, alSet, h]
      · cases hd with
        | mk k' v' => simp only [alSet, alGet]; simp_all [alGet, alSet]

/-- Lowercase hex digit, as produced by `Buffer.toString('hex')`. -/
def hexDigitChar (n : Nat) : Char :=
  if n < 10 then Char.ofNat (48 + n) else Char.ofNat (87 + n)

/-- Two lowercase hex chars of one byte. -/
def byteToHex (b : Nat) : List Char :=
  [hexDigitChar (b / 16 % 16), hexDigitChar (b % 16)]

/-- `buffer.toString('hex')` over a whole byte list. -/
def bytesToHex (bs : List Nat) : List Char :=
  (bs.map byteToHex).flatten

/-- Core of `decodeImeiFromBcd`: walk the hex string two characters at a
time, always keeping the first character of the pair and keeping the second
unless it is an `f`.  A trailing lone character makes the source read
`byte[1]` of `undefined` and raise a `TypeError` (caught upstream), which we
model as `none`. -/
def decodeImeiCore : List Char → Option (List Char)
  | [] => some []
  | [_] => none
  | c0 :: c1 :: rest =>
      match decodeImeiCore rest with
      | none => none
      | some t => some (c0 :: (if c1.toLower = 'f' then t else c1 :: t))

/-- `decodeImeiFromBcd(hex)`: decode then `slice(0, 15)`. -/
def decodeImeiFromBcd (hex : List Char) : Option String :=
  (decodeImeiCore hex).map (fun l => String.mk (l.take 15))

/-- `buffer.readInt32BE`: big-endian 32-bit signed read. -/
def readInt32BE (b0 b1 b2 b3 : Nat) : Int :=
  let u : Nat := b0 * 16777216 + b1 * 65536 + b2 * 256 + b3
  if u < 2147483648 then (u : Int) else (u : Int) - 4294967296

/-- The six calendar fields read by `parseDatetime` (the source wraps them in
a JS `Date` via `Date.UTC`; the fields determine that instant). -/
structure GTDateTime where
  year : Nat
  month : Nat
  day : Nat
  hours : Nat
  minutes : Nat
  seconds : Nat
deriving DecidableEq, Repr

/-- `parseDatetime(buffer.slice(4, 10))`. -/
def parseDatetime (b0 b1 b2 b3 b4 b5 : Nat) : GTDateTime :=
  ⟨2000 + b0, b1, b2, b3, b4, b5⟩

/-- The tagged packet variants produced by `parseGT06Data`. -/
inductive GTBody where
  | login (imei : String)
  | location (datetime : GTDateTime) (satellites : Nat) (lat lon : ℚ)
      (speed : Nat) (course : Nat) (realtimeGps : Bool)
  | heartbeat
  | unknown (protocol : Nat)
deriving DecidableEq

/-- A parsed packet: `length` is the source's `packetLength + 2` field. -/
structure GTPacket where
  length : Nat
  body : GTBody
deriving DecidableEq

/-- `parseGT06Data(buffer)`.  Out-of-range `Buffer` reads raise in JS and are
caught by the data handler's `try`; both that and the explicit `return null`
end packet processing for the chunk, so both are modelled as `none`. -/
def parseGT06Data (buffer : List Nat) : Option GTPacket :=
  if buffer.length < 2 then none
  else if buffer.getD 0 0 * 256 + buffer.getD 1 0 ≠ 0x7878 then none
  else if buffer.length < 4 then none
  else
    let packetLength := buffer.getD 2 0
    let protocolNumber := buffer.getD 3 0
    if protocolNumber = 0x01 then
      match decodeImeiFromBcd (((bytesToHex buffer).drop 9).take 16) with
      | none => none
      | some imei => some ⟨packetLength + 2, GTBody.login imei⟩
    else if protocolNumber = 0x12 then
      if buffer.length < 22 then none
      else
        let dt := parseDatetime (buffer.getD 4 0) (buffer.getD 5 0) (buffer.getD 6 0)
          (buffer.getD 7 0) (buffer.getD 8 0) (buffer.getD 9 0)
        let gpsInfo := buffer.getD 10 0
        let latRaw := readInt32BE (buffer.getD 11 0) (buffer.getD 12 0)
          (buffer.getD 13 0) (buffer.getD 14 0)
        let lonRaw := readInt32BE (buffer.getD 15 0) (buffer.getD 16 0)
          (buffer.getD 17 0) (buffer.getD 18 0)
        let courseStatus := buffer.getD 20 0 * 256 + buffer.getD 21 0
        some ⟨packetLength + 2,
          GTBody.location dt (gpsInfo >>> 4)
            ((latRaw : ℚ) / 1800000) ((lonRaw : ℚ) / 1800000)
            (buffer.getD 19 0) (courseStatus &&& 0x03FF)
            (courseStatus &&& 0x2000 ≠ 0)⟩
    else if protocolNumber = 0x13 then some ⟨packetLength + 2, GTBody.heartbeat⟩
    else some ⟨packetLength + 2, GTBody.unknown protocolNumber⟩

/-- One bit step of the GT06 ITU CRC-16 (reflected polynomial 0x8408). -/
def crcStep (c : Nat) : Nat :=
  if c &&& 1 = 1 then (c >>> 1) ^^^ 0x8408 else c >>> 1

/-- Feed one byte into the CRC state. -/
def crcByte (c b : Nat) : Nat := crcStep^[8] (c ^^^ b)

/-- GT06 ITU CRC-16 of a byte list (init 0xFFFF, final complement), as the
spec's §4.1 prescribes for ACK frames. -/
def crcItu (bs : List Nat) : Nat :=
  ((bs.foldl crcByte 0xFFFF) ^^^ 0xFFFF) &&& 0xFFFF

/-- Follows the spec's words (§4.1): an ACK is
`0x78 0x78 | 0x05 | protocol | serial hi | serial lo | crc hi | crc lo |
0x0D 0x0A` with the CRC taken over the bytes from the length byte through
the serial inclusive.  This is the spec-side definition used to compare the
code's behaviour against; it does not occur in the source. -/
def specCanonicalAck (proto hi lo : Nat) : List Nat :=
  let crc := crcItu [0x05, proto, hi, lo]
  [0x78, 0x78, 0x05, proto, hi, lo, crc / 256, crc % 256, 0x0D, 0x0A]

/-- The tracker-state record.  All fields the source ever stores are
optional: the source attaches each one only on the paths that set it.
`history` marks the empty `history: []` array created at login (the source
never appends to it), and `queueId` models the opaque
`Date.now + Math.random` trace token as a fresh natural. -/
structure TrackerData where
  imei : Option String := none
  lat : Option ℚ := none
  lon : Option ℚ := none
  speed : Option Nat := none
  course : Option Nat := none
  datetime : Option GTDateTime := none
  lastUpdate : Option Nat := none
  receivedTime : Option Nat := none
  status : Option String := none
  history : Option Unit := none
  messageId : Option String := none
  messagePrefix : Option String := none
  queueId : Option Nat := none
deriving DecidableEq

/-- The process-wide mutable state of `server.js`.  `trackers` is keyed by
`Option String` because the WebSocket ingress calls
`trackers.set(data.data.imei, …)` with a possibly-`undefined` key, and a JS
`Map` admits `undefined` as a key; device-side writes always use
`some imei`.  `clients` lists the connected observers' open flags
(`readyState === OPEN`).  `queueIdCounter` is the fresh-token source for
`queueId`. -/
structure ServerState where
  trackers : List (Option String × TrackerData) := []
  messageQueues : List (String × List TrackerData) := []
  broadcastInProgress : List (String × Bool) := []
  unbroadcastedMessages : List (Option String × Nat) := []
  messageCounters : List (String × Nat) := []
  clients : List Bool := []
  queueIdCounter : Nat := 0
deriving DecidableEq

/-- A device TCP session: `imei` is bound by a successful login. -/
structure Session where
  imei : Option String := none
deriving DecidableEq

/-- The observable actions of the server, in program order:
`devWrite` is a `socket.write` of ACK bytes to the device, `bcast` is one
broadcast invocation fanning a payload out to every open observer, and
`setFlag`/`deq`/`clearFlag` trace the per-IMEI drainer of
`processMessageQueue`. -/
inductive Event where
  | devWrite (bytes : List Nat)
  | bcast (d : TrackerData)
  | setFlag (imei : String)
  | deq (imei : String) (d : TrackerData)
  | clearFlag (imei : String)
deriving DecidableEq

/-- `true` exactly on device-directed `socket.write` events. -/
def Event.isDevWrite : Event → Bool
  | Event.devWrite _ => true
  | _ => false

/-- `currentCount.toString().padStart(4, '0')`. -/
def padStart4 (n : Nat) : String :=
  String.mk (List.replicate (4 - (toString n).length) '0' ++ (toString n).toList)

/-- `imei.slice(-4)`. -/
def sliceLast4 (s : String) : String :=
  String.mk (s.toList.drop (s.toList.length - 4))

/-- `initializeQueue(imei)`: create the queue, flag and unbroadcasted
counter on first use.  (Named `ensureQueue` here.) -/
def ensureQueue (m : String) (s : ServerState) : ServerState :=
  if (alGet s.messageQueues m).isSome then s
  else
    { s with
      messageQueues := alSet s.messageQueues m [],
      broadcastInProgress := alSet s.broadcastInProgress m false,
      unbroadcastedMessages := alSet s.unbroadcastedMessages (some m) 0 }

/-- `generateMessageIds(imei)`: bump the per-IMEI counter, derive the
zero-padded message id and `<last 4 of imei>-<id>` tag, and draw a fresh
queue id. -/
def generateMessageIds (m : String) (s : ServerState) :
    (String × String × Nat) × ServerState :=
  let n := (alGet s.messageCounters m).getD 0 + 1
  let s1 := { s with messageCounters := alSet s.messageCounters m n }
  let mid := padStart4 n
  let tag := sliceLast4 m ++ "-" ++ mid
  ((mid, tag, s1.queueIdCounter), { s1 with queueIdCounter := s1.queueIdCounter + 1 })

/-- The body of the `while (queue.length > 0)` drain loop of
`processMessageQueue`: shift the head, publish it to `trackers`, broadcast
it (the awaited promise resolves synchronously in the source), and refresh
the unbroadcasted counter. -/
def drainGo (m : String) : List TrackerData → ServerState → ServerState × List Event
  | [], s => (s, [])
  | d :: rest, s =>
      let s1 :=
        { s with
          messageQueues := alSet s.messageQueues m rest,
          trackers := alSet s.trackers (some m) d }
      let s2 :=
        { s1 with unbroadcastedMessages := alSet s1.unbroadcastedMessages (some m) rest.length }
      let r := drainGo m rest s2
      (r.1, Event.deq m d :: Event.bcast d :: r.2)

/-- `processMessageQueue(imei)`: return at once if a broadcast is already in
progress for this IMEI or the queue is absent or empty; otherwise raise the
flag, drain to empty, and clear the flag in the `finally`. -/
def processMessageQueue (m : String) (s : ServerState) : ServerState × List Event :=
  if alGet s.broadcastInProgress m = some true then (s, [])
  else
    match alGet s.messageQueues m with
    | none => (s, [])
    | some [] => (s, [])
    | some (d :: rest) =>
        let s1 := { s with broadcastInProgress := alSet s.broadcastInProgress m true }
        let r := drainGo m (d :: rest) s1
        ({ r.1 with broadcastInProgress := alSet r.1.broadcastInProgress m false },
          Event.setFlag m :: r.2 ++ [Event.clearFlag m])

/-- `enqueueMessage(imei, trackerData)`: initialize the queue, stamp the
tracker data in place with `messageId`, `messagePrefix` and `queueId`, push
it, refresh the unbroadcasted count, then kick `processMessageQueue`. -/
def enqueueMessage (m : String) (d : TrackerData) (s : ServerState) :
    ServerState × List Event :=
  let s0 := ensureQueue m s
  let r := generateMessageIds m s0
  let d' := { d with
    messageId := some r.1.1,
    messagePrefix := some r.1.2.1,
    queueId := some r.1.2.2 }
  let q' := ((alGet r.2.messageQueues m).getD []) ++ [d']
  let s2 := { r.2 with messageQueues := alSet r.2.messageQueues m q' }
  let s3 := { s2 with unbroadcastedMessages := alSet s2.unbroadcastedMessages (some m) q'.length }
  processMessageQueue m s3

/-- `broadcastToWebClients(data)`: send to every open observer; when at
least one send succeeded, reset the unbroadcasted counter for
`data.imei`. -/
def broadcastToWebClients (d : TrackerData) (s : ServerState) :
    ServerState × List Event :=
  let successCount := s.clients.count true
  let s' :=
    if 0 < successCount then
      { s with unbroadcastedMessages := alSet s.unbroadcastedMessages d.imei 0 }
    else s
  (s', [Event.bcast d])

/-- The hardcoded `787805010001d9dc0d0a` login response of the source. -/
def fixedLoginResponse : List Nat :=
  [0x78, 0x78, 0x05, 0x01, 0x00, 0x01, 0xd9, 0xdc, 0x0d, 0x0a]

/-- The hardcoded `787805130001d9dc0d0a` heartbeat response of the source. -/
def fixedHeartbeatResponse : List Nat :=
  [0x78, 0x78, 0x05, 0x13, 0x00, 0x01, 0xd9, 0xdc, 0x0d, 0x0a]

/-- The `trackerData` object literal built in the location branch of the TCP
data handler (`receivedTime` and `lastUpdate` are both taken at `now`). -/
def deviceLocationData (now : Nat) (m : String) (dt : GTDateTime)
    (la lo : ℚ) (sp crs : Nat) : TrackerData :=
  { imei := some m, lat := some la, lon := some lo, speed := some sp,
    course := some crs, datetime := some dt, lastUpdate := some now,
    receivedTime := some now }

/-- The record `enqueueMessage m d s` actually stores and broadcasts: `d`
with the three generated identification fields attached. -/
def enqueuedRecord (m : String) (d : TrackerData) (s : ServerState) : TrackerData :=
  { d with
    messageId := some (padStart4 ((alGet s.messageCounters m).getD 0 + 1)),
    messagePrefix :=
      some (sliceLast4 m ++ "-" ++ padStart4 ((alGet s.messageCounters m).getD 0 + 1)),
    queueId := some s.queueIdCounter }

/-- Dispatch of the TCP data handler on one parsed packet. -/
def handlePacket (now : Nat) (p : GTPacket) (sess : Session) (s : ServerState) :
    Session × ServerState × List Event :=
  match p.body with
  | GTBody.login im =>
      let s1 :=
        if (alGet s.trackers (some im)).isSome then s
        else { s with trackers := alSet s.trackers (some im) { imei := some im, history := some () } }
      (⟨some im⟩, s1, [Event.devWrite fixedLoginResponse])
  | GTBody.location dt _sat la lo sp crs _rt =>
      match sess.imei with
      | some m =>
          let r := enqueueMessage m (deviceLocationData now m dt la lo sp crs) s
          (sess, r.1, r.2)
      | none => (sess, s, [])
  | GTBody.heartbeat =>
      match sess.imei with
      | some _ => (sess, s, [Event.devWrite fixedHeartbeatResponse])
      | none => (sess, s, [])
  | GTBody.unknown _ => (sess, s, [])

/-- The `while (offset < data.length)` loop of the TCP data handler.  The
`fuel` argument only bounds the iteration count for structural recursion:
every parsed packet has `length = packetLength + 2 ≥ 2`, so `data.length + 1`
iterations always suffice (the JS loop terminates for the same reason). -/
def handleLoop (now : Nat) (data : List Nat) :
    Nat → Nat → Session → ServerState → List Event →
    Session × ServerState × List Event
  | 0, _, sess, s, acc => (sess, s, acc)
  | fuel + 1, offset, sess, s, acc =>
      if offset < data.length then
        match parseGT06Data (data.drop offset) with
        | none => (sess, s, acc)
        | some p =>
            let r := handlePacket now p sess s
            handleLoop now data fuel (offset + p.length) r.1 r.2.1 (acc ++ r.2.2)
      else (sess, s, acc)

/-- One `socket.on('data')` firing: parse and dispatch frames from `data`
starting at offset 0. -/
def handleData (now : Nat) (data : List Nat) (sess : Session) (s : ServerState) :
    Session × ServerState × List Event :=
  handleLoop now data (data.length + 1) 0 sess s []

/-- A parsed observer JSON message `{ type, data }`. -/
structure WsClientMsg where
  type : String
  data : TrackerData
deriving DecidableEq

/-- The observer `ws.on('message')` handler: on `update` or `initial_state`
store the payload in `trackers` under `data.data.imei`, bump the
unbroadcasted counter, and broadcast the payload directly via
`broadcastToWebClients`. -/
def handleWsMessage (msg : WsClientMsg) (s : ServerState) : ServerState × List Event :=
  if msg.type = "update" ∨ msg.type = "initial_state" then
    let s1 := { s with trackers := alSet s.trackers msg.data.imei msg.data }
    let cnt := (alGet s1.unbroadcastedMessages msg.data.imei).getD 0
    let s2 :=
      { s1 with unbroadcastedMessages := alSet s1.unbroadcastedMessages msg.data.imei (cnt + 1) }
    broadcastToWebClients msg.data s2
  else (s, [])

/-- The state at process start: every map empty, no observer connected. -/
def initialServerState : ServerState := {}

/-! ## Concrete frames and states used by the closed theorems below -/

/-- The 16-byte login frame from the source's own test instructions,
`78780d01086802203853172400010d0a`. -/
def loginBytes16 : List Nat :=
  [0x78, 0x78, 0x0d, 0x01, 0x08, 0x68, 0x02, 0x20, 0x38, 0x53, 0x17, 0x24,
   0x00, 0x01, 0x0d, 0x0a]

/-- The same login payload as a full `length + 5 = 18` byte GT06 frame
(serial `0x0001`, an arbitrary CRC `0xabcd` — the parser never reads it). -/
def loginFrame18 : List Nat :=
  [0x78, 0x78, 0x0d, 0x01, 0x08, 0x68, 0x02, 0x20, 0x38, 0x53, 0x17, 0x24,
   0x00, 0x01, 0xab, 0xcd, 0x0d, 0x0a]

/-- The 18-byte login frame with serial `0x0002`. -/
def loginFrame18SerialTwo : List Nat :=
  [0x78, 0x78, 0x0d, 0x01, 0x08, 0x68, 0x02, 0x20, 0x38, 0x53, 0x17, 0x24,
   0x00, 0x02, 0xab, 0xcd, 0x0d, 0x0a]

/-- A login frame whose BCD field is all `0xFF` padding: its decode
`"ffffffff0"` is nowhere near 15 decimal digits. -/
def ffLoginBytes : List Nat :=
  [0x78, 0x78, 0x0d, 0x01, 0xff, 0xff, 0xff, 0xff, 0xff, 0xff, 0xff, 0xff,
   0x00, 0x01, 0x0d, 0x0a]

/-- A canonical 10-byte heartbeat frame (protocol `0x13`, serial `0x0001`). -/
def heartbeatFrame10 : List Nat :=
  [0x78, 0x78, 0x05, 0x13, 0x00, 0x01, 0xd9, 0xdc, 0x0d, 0x0a]

/-- The 29-byte location packet from the source's own test instructions,
`78782212100C1A0F2E28C802E3A15D05282564000C00010002AE2D0d0a`. -/
def locFrame29 : List Nat :=
  [0x78, 0x78, 0x22, 0x12, 0x10, 0x0C, 0x1A, 0x0F, 0x2E, 0x28, 0xC8, 0x02,
   0xE3, 0xA1, 0x5D, 0x05, 0x28, 0x25, 0x64, 0x00, 0x0C, 0x00, 0x01, 0x00,
   0x02, 0xAE, 0x2D, 0x0D, 0x0A]

/-- First six bytes of `loginFrame18`: the head of a frame split across two
TCP reads. -/
def chunkA : List Nat := loginFrame18.take 6

/-- Remaining twelve bytes of `loginFrame18`: the tail of the split frame. -/
def chunkB : List Nat := loginFrame18.drop 6

/-! ## Lemmas about the drain loop and the queue machinery -/

theorem drainGo_events_kinds (m : String) :
    ∀ (q : List TrackerData) (s : ServerState) (e : Event),
      e ∈ (drainGo m q s).2 →
      (∃ d, e = Event.deq m d) ∨ (∃ d, e = Event.bcast d) := by
  intro q
  induction q with
  | nil => intro s e he; simp [drainGo] at he
  | cons d rest ih =>
      intro s e he
      simp only [drainGo, List.mem_cons] at he
      rcases he with h | h | h
      · exact Or.inl ⟨d, h⟩
      · exact Or.inr ⟨d, h⟩
      · exact ih _ e h

theorem drainGo_bcast_mem (m : String) :
    ∀ (q : List TrackerData) (s : ServerState) (d : TrackerData),
      d ∈ q → Event.bcast d ∈ (drainGo m q s).2 := by
  intro q
  induction q with
  | nil => intro s d hd; simp at hd
  | cons x rest ih =>
      intro s d hd
      simp only [drainGo, List.mem_cons]
      rcases List.mem_cons.mp hd with h | h
      · subst h; exact Or.inr (Or.inl rfl)
      · exact Or.inr (Or.inr (ih _ d h))

theorem drainGo_trackers_last (m : String) (d : TrackerData) :
    ∀ (q : List TrackerData) (s : ServerState),
      alGet (drainGo m (q ++ [d]) s).1.trackers (some m) = some d := by
  intro q
  induction q with
  | nil =>
      intro s
      simp [drainGo, alGet_alSet]
  | cons x rest ih =>
      intro s
      simpa [drainGo] using ih _

/-- When the flag is down and the queue holds `q ++ [d]`, the drainer runs:
afterwards the registry holds `d`, every queued element was broadcast, and
no device write was issued. -/
theorem pmq_drain_spec (m : String) (s : ServerState) (d : TrackerData)
    (q : List TrackerData)
    (hf : ¬ alGet s.broadcastInProgress m = some true)
    (hq : alGet s.messageQueues m = some (q ++ [d])) :
    alGet (processMessageQueue m s).1.trackers (some m) = some d ∧
    Event.bcast d ∈ (processMessageQueue m s).2 ∧
    ∀ e ∈ (processMessageQueue m s).2, e.isDevWrite = false := by
  obtain ⟨x, rest, hxr⟩ : ∃ x rest, q ++ [d] = x :: rest := by
    cases q with
    | nil => exact ⟨d, [], rfl⟩
    | cons a b => exact ⟨a, b ++ [d], rfl⟩
  rw [hxr] at hq
  have hres : processMessageQueue m s =
      (let s1 := { s with broadcastInProgress := alSet s.broadcastInProgress m true }
       let r := drainGo m (x :: rest) s1
       ({ r.1 with broadcastInProgress := alSet r.1.broadcastInProgress m false },
         Event.setFlag m :: r.2 ++ [Event.clearFlag m])) := by
    unfold processMessageQueue
    rw [if_neg hf, hq]
  rw [hres]
  dsimp only
  refine ⟨?_, ?_, ?_⟩
  · rw [← hxr]
    exact drainGo_trackers_last m d q _
  · apply List.mem_cons_of_mem
    apply List.mem_append_left
    rw [← hxr]
    exact drainGo_bcast_mem m (q ++ [d]) _ d
      (List.mem_append_right _ (List.mem_singleton.mpr rfl))
  · intro e he
    rcases List.mem_cons.mp he with h | h
    · simp [h, Event.isDevWrite]
    · rcases List.mem_append.mp h with h | h
      · rcases drainGo_events_kinds m _ _ e h with ⟨d', h'⟩ | ⟨d', h'⟩ <;>
          simp [h', Event.isDevWrite]
      · rw [List.mem_singleton.mp h]
        simp [Event.isDevWrite]

/-- When no broadcast is in progress for `m`, `enqueueMessage` stamps the
three identification fields onto `d`, drains the queue at once, stores the
stamped record in the registry, broadcasts it, and writes nothing to the
device. -/
theorem enqueueMessage_drain (m : String) (d : TrackerData) (s : ServerState)
    (hf : ¬ alGet s.broadcastInProgress m = some true) :
    alGet (enqueueMessage m d s).1.trackers (some m) = some (enqueuedRecord m d s) ∧
    Event.bcast (enqueuedRecord m d s) ∈ (enqueueMessage m d s).2 ∧
    ∀ e ∈ (enqueueMessage m d s).2, e.isDevWrite = false := by
  by_cases hq : (alGet s.messageQueues m).isSome
  · have h0 : ensureQueue m s = s := by simp [ensureQueue, hq]
    obtain ⟨q0, hq0⟩ := Option.isSome_iff_exists.mp hq
    simp only [enqueueMessage, h0, generateMessageIds, hq0, Option.getD_some]
    refine pmq_drain_spec m _ _ q0 ?_ ?_
    · exact hf
    · exact alGet_alSet _ _ _
  · have h0 : ensureQueue m s =
        { s with
          messageQueues := alSet s.messageQueues m [],
          broadcastInProgress := alSet s.broadcastInProgress m false,
          unbroadcastedMessages := alSet s.unbroadcastedMessages (some m) 0 } := by
      simp [ensureQueue, hq]
    simp only [enqueueMessage, h0, generateMessageIds, alGet_alSet, Option.getD_some,
      List.nil_append]
    refine pmq_drain_spec m _ _ [] ?_ ?_
    · simp [alGet_alSet]
    · exact alGet_alSet _ _ _

/-! ## C1 — observer ingress does not enqueue -/

/-- An earlier device-originated update for IMEI `111122223333444`, sitting
in its queue while the drainer is busy. -/
def dA : TrackerData := { imei := some "111122223333444", lat := some 1, lon := some 1 }

/-- A later observer-injected update for the same IMEI. -/
def dB : TrackerData := { imei := some "111122223333444", lat := some 2, lon := some 2 }

/-- A state in which the drainer for `111122223333444` is in progress and
`dA` is still queued, with one open observer. -/
def busyDrainState : ServerState :=
  { trackers := [],
    messageQueues := [("111122223333444", [dA])],
    broadcastInProgress := [("111122223333444", true)],
    unbroadcastedMessages := [(some "111122223333444", 1)],
    messageCounters := [("111122223333444", 1)],
    clients := [true],
    queueIdCounter := 3 }

/-- The observer frame carrying `dB`. -/
def msgB : WsClientMsg := ⟨"update", dB⟩

/-- C1 counterexample: an observer `update` for an IMEI whose queue still
holds an earlier update `dA` is broadcast immediately and is never put on
the per-device queue — the queue still holds exactly `dA` afterwards — so
observers receive `dB` before the earlier-enqueued `dA`, violating the
claimed enqueue-as-a-device-would behaviour and the cross-source FIFO. -/
theorem C1_counterexample :
    (handleWsMessage msgB busyDrainState).1.messageQueues =
      [("111122223333444", [dA])] ∧
    (handleWsMessage msgB busyDrainState).2 = [Event.bcast dB] ∧
    ¬ dA = dB := by decide

/-- C1 amended: an observer-to-server `update` (or `initial_state`) frame
updates the Device Registry under `data.imei` and broadcasts the payload
directly via `broadcastToWebClients`; it never touches the per-device
queues, so the claimed per-IMEI FIFO across both ingress sources is not
routed through the queue. -/
theorem C1_amended (msg : WsClientMsg) (s : ServerState)
    (h : msg.type = "update" ∨ msg.type = "initial_state") :
    (handleWsMessage msg s).1.messageQueues = s.messageQueues ∧
    (handleWsMessage msg s).1.trackers = alSet s.trackers msg.data.imei msg.data ∧
    (handleWsMessage msg s).2 = [Event.bcast msg.data] := by
  simp only [handleWsMessage, if_pos h, broadcastToWebClients]
  refine ⟨?_, ?_, ?_⟩ <;>
    first
      | trivial
      | (dsimp only; split <;> rfl)

/-- A concrete observer payload for the C1 witness. -/
def wsPayloadW : TrackerData := { imei := some "555566667777888", lat := some 3 }

/-- The observer frame carrying `wsPayloadW`. -/
def wsMsgW : WsClientMsg := ⟨"update", wsPayloadW⟩

theorem C1_witness :
    (wsMsgW.type = "update" ∨ wsMsgW.type = "initial_state") ∧
    ((handleWsMessage wsMsgW initialServerState).1.messageQueues =
        initialServerState.messageQueues ∧
      (handleWsMessage wsMsgW initialServerState).1.trackers =
        alSet initialServerState.trackers wsMsgW.data.imei wsMsgW.data ∧
      (handleWsMessage wsMsgW initialServerState).2 = [Event.bcast wsMsgW.data]) :=
  ⟨Or.inl rfl, C1_amended wsMsgW initialServerState (Or.inl rfl)⟩

/-! ## C2 — per-IMEI exclusive drainer -/

/-- C2: when the broadcast-in-progress flag for an IMEI is set, a call to
`processMessageQueue` for that IMEI returns at once with no dequeue and no
state change; otherwise its trace is either empty or raises the flag before
the first dequeue, contains only dequeue/broadcast events for that IMEI in
between, and clears the flag exactly at drain-loop exit (the flag reading
`false` afterwards). -/
theorem C2_exclusive_drainer (m : String) (s : ServerState) :
    (alGet s.broadcastInProgress m = some true → processMessageQueue m s = (s, [])) ∧
    ((processMessageQueue m s).2 = [] ∨
      ∃ body, (processMessageQueue m s).2 = Event.setFlag m :: body ++ [Event.clearFlag m] ∧
        (∀ e ∈ body, (∃ d, e = Event.deq m d) ∨ (∃ d, e = Event.bcast d)) ∧
        alGet (processMessageQueue m s).1.broadcastInProgress m = some false) := by
  constructor
  · intro h
    simp [processMessageQueue, h]
  · by_cases h : alGet s.broadcastInProgress m = some true
    · left
      simp [processMessageQueue, h]
    · cases hq : alGet s.messageQueues m with
      | none => left; simp [processMessageQueue, if_neg h, hq]
      | some q =>
          cases q with
          | nil => left; simp [processMessageQueue, if_neg h, hq]
          | cons x rest =>
              right
              have hres : processMessageQueue m s =
                  (let s1 := { s with broadcastInProgress := alSet s.broadcastInProgress m true }
                   let r := drainGo m (x :: rest) s1
                   ({ r.1 with broadcastInProgress := alSet r.1.broadcastInProgress m false },
                     Event.setFlag m :: r.2 ++ [Event.clearFlag m])) := by
                unfold processMessageQueue
                rw [if_neg h, hq]
              rw [hres]
              dsimp only
              refine ⟨_, rfl, ?_, ?_⟩
              · intro e he
                exact drainGo_events_kinds m _ _ e he
              · exact alGet_alSet _ _ _

/-- A state whose flag for IMEI `999988887777666` is raised. -/
def busyFlagState : ServerState :=
  { broadcastInProgress := [("999988887777666", true)] }

theorem C2_witness :
    alGet busyFlagState.broadcastInProgress "999988887777666" = some true ∧
    processMessageQueue "999988887777666" busyFlagState = (busyFlagState, []) :=
  ⟨by decide, (C2_exclusive_drainer "999988887777666" busyFlagState).1 (by decide)⟩

/-! ## C3 — ACKs are hardcoded, not serial-echoing CRC frames -/

/-- C3 counterexample: a login frame whose serial is `0x0002` is answered
with the fixed bytes `787805010001d9dc0d0a`, which differ from the
serial-echoing canonical ACK the claim prescribes for that serial. -/
theorem C3_counterexample :
    (handleData 0 loginFrame18SerialTwo ⟨none⟩ initialServerState).2.2 =
      [Event.devWrite fixedLoginResponse] ∧
    ¬ fixedLoginResponse = specCanonicalAck 0x01 0x00 0x02 := by decide

/-- C3 amended: the server answers every login frame with the fixed bytes
`787805010001d9dc0d0a` and every heartbeat frame (on a bound session) with
the fixed bytes `787805130001d9dc0d0a`, never echoing the frame's serial;
the fixed login response coincides with the canonical CRC-16 ACK only for
serial `0x0001`, and the fixed heartbeat response's checksum field is not
the CRC-16 of its own contents. -/
theorem C3_amended (now len : Nat) (im : String) (sess : Session) (s : ServerState) :
    (handlePacket now ⟨len, GTBody.login im⟩ sess s).2.2 =
      [Event.devWrite fixedLoginResponse] ∧
    fixedLoginResponse = specCanonicalAck 0x01 0x00 0x01 ∧
    (handlePacket now ⟨len, GTBody.heartbeat⟩ ⟨some im⟩ s).2.2 =
      [Event.devWrite fixedHeartbeatResponse] ∧
    ¬ fixedHeartbeatResponse = specCanonicalAck 0x13 0x00 0x01 :=
  ⟨rfl, by decide, rfl, by decide⟩

/-! ## C4 — IMEI decode result and missing 15-digit validation -/

/-- C4 counterexample: feeding the claim's login bytes binds the session's
IMEI to `"868022038531724"`, not to the claimed `"868022038531725"` (the
decoder takes hex characters 9 through 24 of the buffer, which for this
frame yields the sixteen digits `8680220385317240` truncated to 15). -/
theorem C4_counterexample :
    (handleData 0 loginBytes16 ⟨none⟩ initialServerState).1 =
      ⟨some "868022038531724"⟩ ∧
    ¬ ("868022038531724" : String) = "868022038531725" := by decide

/-- C4 amended: the login bytes `78780d01086802203853172400010d0a` bind the
session's IMEI to `"868022038531724"` (hex characters 9..24 of the buffer,
`f` second-nibbles skipped, truncated to 15 characters); the parser performs
no 15-decimal-digit validation — a login frame whose BCD field is all `0xFF`
decodes to the 9-character string `"ffffffff0"` and is still accepted. -/
theorem C4_amended :
    (handleData 0 loginBytes16 ⟨none⟩ initialServerState).1 =
      ⟨some "868022038531724"⟩ ∧
    parseGT06Data ffLoginBytes = some ⟨15, GTBody.login "ffffffff0"⟩ ∧
    ¬ ("ffffffff0" : String).length = 15 := by decide

/-! ## C5 — offset advance is `length + 2`, not `length + 5` -/

/-- C5: the parser reports `packetLength + 2 = 15` as the total size of a
frame with length byte `0x0d` (its own comment says this is the total
including start and stop bytes, which is `0x0d + 5 = 18`), and consequently
a second well-formed frame following the first in the same chunk is never
parsed: only the login ACK is written, the heartbeat ACK never appears. -/
theorem C5_theorem :
    parseGT06Data loginFrame18 = some ⟨15, GTBody.login "868022038531724"⟩ ∧
    ¬ (15 : Nat) = 0x0d + 5 ∧
    (handleData 0 (loginFrame18 ++ heartbeatFrame10) ⟨none⟩ initialServerState).2.2 =
      [Event.devWrite fixedLoginResponse] := by decide

/-! ## C6 — no cross-read buffering -/

/-- C6 counterexample: splitting one login frame across two `data` events
yields no parsed frame at all — each read starts from scratch, the partial
head is discarded and the tail alone does not parse — while the same bytes
in a single read bind the IMEI. -/
theorem C6_counterexample :
    handleData 0 chunkA ⟨none⟩ initialServerState =
      (⟨none⟩, initialServerState, []) ∧
    handleData 0 chunkB ⟨none⟩ initialServerState =
      (⟨none⟩, initialServerState, []) ∧
    (handleData 0 (chunkA ++ chunkB) ⟨none⟩ initialServerState).1 =
      ⟨some "868022038531724"⟩ := by decide

/-- C6 amended: each TCP read is parsed standalone with no cross-read
buffer; a frame split across two reads is never parsed (neither half has
any effect), while complete frames at the front of a read are processed and
trailing unparseable bytes are simply dropped. -/
theorem C6_amended :
    (handleData 0 chunkA ⟨none⟩ initialServerState).1 = ⟨none⟩ ∧
    (handleData 0 chunkB ⟨none⟩ initialServerState).1 = ⟨none⟩ ∧
    (handleData 0 (loginFrame18 ++ [0x78, 0x78]) ⟨none⟩ initialServerState).1 =
      ⟨some "868022038531724"⟩ ∧
    (handleData 0 (loginFrame18 ++ [0x78, 0x78]) ⟨none⟩ initialServerState).2.2 =
      [Event.devWrite fixedLoginResponse] := by decide

/-! ## C7 — location frames are processed but never acknowledged -/

/-- C7 counterexample: a location frame on a session with a bound IMEI is
processed (the event trace is nonempty: the update is enqueued, drained and
broadcast) yet no `socket.write` to the device ever happens — the claimed
location ACK is absent. -/
theorem C7_counterexample :
    (∀ e ∈ (handleData 0 locFrame29 ⟨some "868022038531724"⟩ initialServerState).2.2,
      e.isDevWrite = false) ∧
    ¬ (handleData 0 locFrame29 ⟨some "868022038531724"⟩ initialServerState).2.2 = [] := by
  decide

/-- C7 amended: on a location frame with a bound IMEI the handler writes no
ACK to the device; it stamps `receivedTime` (and `lastUpdate`) with the
current time, enqueues the update, and — when no broadcast is in progress
for that IMEI — the drainer immediately stores the stamped record in the
registry and broadcasts it to the observers. -/
theorem C7_amended (now len sat : Nat) (m : String) (dt : GTDateTime)
    (la lo : ℚ) (sp crs : Nat) (rt : Bool) (s : ServerState)
    (hf : ¬ alGet s.broadcastInProgress m = some true) :
    (∀ e ∈ (handlePacket now ⟨len, GTBody.location dt sat la lo sp crs rt⟩
        ⟨some m⟩ s).2.2, e.isDevWrite = false) ∧
    alGet (handlePacket now ⟨len, GTBody.location dt sat la lo sp crs rt⟩
        ⟨some m⟩ s).2.1.trackers (some m) =
      some (enqueuedRecord m (deviceLocationData now m dt la lo sp crs) s) ∧
    Event.bcast (enqueuedRecord m (deviceLocationData now m dt la lo sp crs) s) ∈
      (handlePacket now ⟨len, GTBody.location dt sat la lo sp crs rt⟩ ⟨some m⟩ s).2.2 ∧
    (enqueuedRecord m (deviceLocationData now m dt la lo sp crs) s).receivedTime =
      some now := by
  obtain ⟨h1, h2, h3⟩ :=
    enqueueMessage_drain m (deviceLocationData now m dt la lo sp crs) s hf
  exact ⟨fun e he => h3 e he, h1, h2, rfl⟩

theorem C7_witness :
    (¬ alGet initialServerState.broadcastInProgress "868022038531724" = some true) ∧
    ((∀ e ∈ (handlePacket 7 ⟨36, GTBody.location ⟨2025, 6, 13, 12, 30, 33⟩ 12 1 2 0 0 false⟩
        ⟨some "868022038531724"⟩ initialServerState).2.2, e.isDevWrite = false) ∧
      alGet (handlePacket 7 ⟨36, GTBody.location ⟨2025, 6, 13, 12, 30, 33⟩ 12 1 2 0 0 false⟩
          ⟨some "868022038531724"⟩ initialServerState).2.1.trackers (some "868022038531724") =
        some (enqueuedRecord "868022038531724"
          (deviceLocationData 7 "868022038531724" ⟨2025, 6, 13, 12, 30, 33⟩ 1 2 0 0)
          initialServerState) ∧
      Event.bcast (enqueuedRecord "868022038531724"
          (deviceLocationData 7 "868022038531724" ⟨2025, 6, 13, 12, 30, 33⟩ 1 2 0 0)
          initialServerState) ∈
        (handlePacket 7 ⟨36, GTBody.location ⟨2025, 6, 13, 12, 30, 33⟩ 12 1 2 0 0 false⟩
          ⟨some "868022038531724"⟩ initialServerState).2.2 ∧
      (enqueuedRecord "868022038531724"
          (deviceLocationData 7 "868022038531724" ⟨2025, 6, 13, 12, 30, 33⟩ 1 2 0 0)
          initialServerState).receivedTime = some 7) :=
  ⟨by decide,
    C7_amended 7 36 12 "868022038531724" ⟨2025, 6, 13, 12, 30, 33⟩ 1 2 0 0 false
      initialServerState (by decide)⟩

/-! ## C8 — observer writes can clear lat/lon -/

/-- A registry entry for IMEI `222233334444555` with coordinates set. -/
def dWithLoc : TrackerData :=
  { imei := some "222233334444555", lat := some 5, lon := some 6 }

/-- An observer payload for the same IMEI with no coordinates at all. -/
def dNoLoc : TrackerData := { imei := some "222233334444555" }

/-- A state whose registry already holds `dWithLoc`. -/
def locSetState : ServerState :=
  { trackers := [(some "222233334444555", dWithLoc)] }

/-- The observer frame carrying the coordinate-free payload. -/
def msgClear : WsClientMsg := ⟨"update", dNoLoc⟩

/-- C8 counterexample: the registry entry for `222233334444555` has `lat`
and `lon` set, yet the observer-injected update without coordinates
replaces the entry wholesale, clearing both fields. -/
theorem C8_counterexample :
    alGet locSetState.trackers (some "222233334444555") = some dWithLoc ∧
    dWithLoc.lat = some 5 ∧ dWithLoc.lon = some 6 ∧
    alGet (handleWsMessage msgClear locSetState).1.trackers
      (some "222233334444555") = some dNoLoc ∧
    dNoLoc.lat = none ∧ dNoLoc.lon = none := by decide

/-- C8 amended: registry writes on the device drain path always carry
`lat`/`lon` (a drained device location stores a record with both present),
but observer-injected updates replace the entry wholesale and can clear
previously set coordinates. -/
theorem C8_amended (now len sat : Nat) (m : String) (dt : GTDateTime)
    (la lo : ℚ) (sp crs : Nat) (rt : Bool) (s : ServerState)
    (hf : ¬ alGet s.broadcastInProgress m = some true) :
    ∃ d', alGet (handlePacket now ⟨len, GTBody.location dt sat la lo sp crs rt⟩
        ⟨some m⟩ s).2.1.trackers (some m) = some d' ∧
      d'.lat = some la ∧ d'.lon = some lo := by
  obtain ⟨h1, -, -⟩ :=
    enqueueMessage_drain m (deviceLocationData now m dt la lo sp crs) s hf
  exact ⟨_, h1, rfl, rfl⟩

theorem C8_witness :
    (¬ alGet initialServerState.broadcastInProgress "222233334444555" = some true) ∧
    (∃ d', alGet (handlePacket 9 ⟨36, GTBody.location ⟨2025, 6, 13, 12, 30, 33⟩ 9 5 6 0 0 true⟩
        ⟨some "222233334444555"⟩ initialServerState).2.1.trackers
          (some "222233334444555") = some d' ∧
      d'.lat = some 5 ∧ d'.lon = some 6) :=
  ⟨by decide,
    C8_amended 9 36 9 "222233334444555" ⟨2025, 6, 13, 12, 30, 33⟩ 5 6 0 0 true
      initialServerState (by decide)⟩

/-! ## C9 — enqueueMessage attaches messageId, messagePrefix, queueId -/

/-- C9: `enqueueMessage` stores and broadcasts exactly the incoming record
with the three generated identification fields attached: `messageId` is the
zero-padded per-IMEI counter, the prefix tag joins the IMEI's last four
characters with that id, and `queueId` is the fresh trace token — so every
`update` delivered through the device drain path and the registry entry
carry these three fields beyond the documented DeviceStateJSON fields. -/
theorem C9_enqueue_ids (m : String) (d : TrackerData) (s : ServerState)
    (hf : ¬ alGet s.broadcastInProgress m = some true) :
    alGet (enqueueMessage m d s).1.trackers (some m) = some (enqueuedRecord m d s) ∧
    Event.bcast (enqueuedRecord m d s) ∈ (enqueueMessage m d s).2 ∧
    enqueuedRecord m d s =
      { d with
        messageId := some (padStart4 ((alGet s.messageCounters m).getD 0 + 1)),
        messagePrefix :=
          some (sliceLast4 m ++ "-" ++ padStart4 ((alGet s.messageCounters m).getD 0 + 1)),
        queueId := some s.queueIdCounter } := by
  obtain ⟨h1, h2, -⟩ := enqueueMessage_drain m d s hf
  exact ⟨h1, h2, rfl⟩

/-- A plain device-style record without identification fields. -/
def plainDataW : TrackerData := { imei := some "123451234512345", lat := some 4 }

theorem C9_witness :
    (¬ alGet initialServerState.broadcastInProgress "123451234512345" = some true) ∧
    (alGet (enqueueMessage "123451234512345" plainDataW initialServerState).1.trackers
        (some "123451234512345") =
      some (enqueuedRecord "123451234512345" plainDataW initialServerState) ∧
      Event.bcast (enqueuedRecord "123451234512345" plainDataW initialServerState) ∈
        (enqueueMessage "123451234512345" plainDataW initialServerState).2 ∧
      enqueuedRecord "123451234512345" plainDataW initialServerState =
        { plainDataW with
          messageId := some (padStart4
            ((alGet initialServerState.messageCounters "123451234512345").getD 0 + 1)),
          messagePrefix := some (sliceLast4 "123451234512345" ++ "-" ++ padStart4
            ((alGet initialServerState.messageCounters "123451234512345").getD 0 + 1)),
          queueId := some initialServerState.queueIdCounter }) :=
  ⟨by decide, C9_enqueue_ids "123451234512345" plainDataW initialServerState (by decide)⟩

/-! ## C10 — observer ingress performs no IMEI validation -/

/-- C10: for any observer `update` frame, whatever the payload — an absent
`imei` (key `none`, JS `undefined`) or any non-15-digit string included —
the handler stores the payload in the registry under `data.imei` and
broadcasts it to all observers; no validation or rejection path exists. -/
theorem C10_no_imei_validation (msg : WsClientMsg) (s : ServerState)
    (h : msg.type = "update") :
    alGet (handleWsMessage msg s).1.trackers msg.data.imei = some msg.data ∧
    (handleWsMessage msg s).2 = [Event.bcast msg.data] := by
  have h' : msg.type = "update" ∨ msg.type = "initial_state" := Or.inl h
  simp only [handleWsMessage, if_pos h', broadcastToWebClients]
  refine ⟨?_, ?_⟩ <;>
    first
      | trivial
      | (dsimp only; split <;> exact alGet_alSet _ _ _)

/-- An observer payload with no `imei` field at all. -/
def ghostData : TrackerData := { lat := some 9 }

/-- The observer frame carrying the imei-less payload. -/
def ghostMsg : WsClientMsg := ⟨"update", ghostData⟩

theorem C10_witness :
    ghostMsg.type = "update" ∧
    (alGet (handleWsMessage ghostMsg initialServerState).1.trackers none =
        some ghostData ∧
      (handleWsMessage ghostMsg initialServerState).2 = [Event.bcast ghostData]) :=
  ⟨rfl, C10_no_imei_validation ghostMsg initialServerState rfl⟩
